import Mathlib

/-!
Verification of the command-execution and output-parsing core of akavelink.

The definitions below are a shallow embedding of the `AkaveIPCClient` module
(`logger.js`, second document: requires at its top bring in `SDKErrors`,
`ErrorMessages`, `ErrorHttpStatus` from `src/utils/error-codes.js`) together
with the error-code registry itself.  JavaScript strings are modelled as
`String`/`List Char`; the handful of string primitives the source uses
(`trim`, `split`, `startsWith`, `includes`, `substring`, the hex-code regex)
are implemented below with JavaScript semantics.  Thrown JavaScript errors are
modelled with `Except`; promise resolution/rejection and uncaught exceptions
inside the event callbacks are modelled by `ExecOutcome`.
-/

namespace Akavelink

/-! ## JavaScript string primitives on lists of characters -/

/-- JS `String.prototype.startsWith`: does the second list start with the
first (pattern) list? -/
def startsWithL : List Char → List Char → Bool
  | [], _ => true
  | _ :: _, [] => false
  | p :: ps, c :: cs => p == c && startsWithL ps cs

/-- JS `String.prototype.includes`: does `s` contain `pat` as a contiguous
substring? -/
def containsSub : List Char → List Char → Bool
  | [], pat => startsWithL pat []
  | c :: cs, pat => startsWithL pat (c :: cs) || containsSub cs pat

/-- Whitespace characters removed by JS `trim` (ASCII fragment). -/
def jsWhitespaceChar (c : Char) : Bool :=
  c == ' ' || c == '\t' || c == '\n' || c == '\r' || c == '\x0b' || c == '\x0c'

/-- JS `String.prototype.trim`. -/
def trimL (l : List Char) : List Char :=
  ((l.dropWhile jsWhitespaceChar).reverse.dropWhile jsWhitespaceChar).reverse

/-- JS `String.prototype.trim` on `String`. -/
def jsTrim (s : String) : String :=
  String.mk (trimL s.data)

/-- Recursion core of JS `split`, structural on a fuel argument so that the
kernel can evaluate it; the fuel is initialised to the input length, which
never runs out because each step consumes at least one character (the zero
fuel case is unreachable). -/
def splitGo (s0 : Char) (srest : List Char) : Nat → List Char → List (List Char)
  | _, [] => [[]]
  | 0, l => [l]
  | fuel + 1, c :: cs =>
    if c == s0 && startsWithL srest cs then
      [] :: splitGo s0 srest fuel (cs.drop srest.length)
    else
      match splitGo s0 srest fuel cs with
      | [] => [[c]]
      | h :: t => (c :: h) :: t

/-- JS `String.prototype.split` with a non-empty plain-string separator
`s0 :: srest`: leftmost, non-overlapping occurrences delimit the pieces. -/
def splitOnL (s0 : Char) (srest : List Char) (l : List Char) : List (List Char) :=
  splitGo s0 srest l.length l

/-- Hex digits accepted by the character class of the regex
`0x[a-fA-F0-9]{8}` in the source. -/
def isHexDigitL (c : Char) : Bool :=
  (('0' ≤ c) && (c ≤ '9')) || (('a' ≤ c) && (c ≤ 'f')) || (('A' ≤ c) && (c ≤ 'F'))

/-- Attempt to match the regex `0x[a-fA-F0-9]{8}` at the head of the list. -/
def hexCodeAt : List Char → Option (List Char)
  | '0' :: 'x' :: rest =>
    let first8 := rest.take 8
    if first8.length = 8 && first8.all isHexDigitL then
      some ('0' :: 'x' :: first8)
    else
      none
  | _ => none

/-- JS `s.match(/0x[a-fA-F0-9]{8}/)`: the leftmost match, if any. -/
def findHexCode : List Char → Option String
  | [] => none
  | c :: cs =>
    match hexCodeAt (c :: cs) with
    | some m => some (String.mk m)
    | none => findHexCode cs

/-- Suffix of `s` after the end of the first occurrence of the (non-empty)
pattern: used for JS `s.substring(s.indexOf(pat) + pat.length)` in the case
where `pat` does occur in `s` (its only use in the source is guarded by a
successful `find`). -/
def dropThroughSub (pat : List Char) : List Char → List Char
  | [] => []
  | c :: cs =>
    if startsWithL pat (c :: cs) then (c :: cs).drop pat.length
    else dropThroughSub pat cs

/-! ## The error-code registry (`src/utils/error-codes.js`) -/

/-! HTTP status constants of `error-codes.js`. -/

namespace HttpStatus

def OK : Nat := 200
def BAD_REQUEST : Nat := 400
def UNAUTHORIZED : Nat := 401
def FORBIDDEN : Nat := 403
def NOT_FOUND : Nat := 404
def CONFLICT : Nat := 409
def INTERNAL_SERVER_ERROR : Nat := 500
def RANGE_NOT_SATISFIABLE : Nat := 416

end HttpStatus

/-! SDK error codes of `error-codes.js` (from akavesdk ipc errors). -/

namespace SDKErrors

def BUCKET_ALREADY_EXISTS : String := "0x497ef2c2"
def BUCKET_INVALID : String := "0x4f4b202a"
def BUCKET_INVALID_OWNER : String := "0xdc64d0ad"
def BUCKET_NONEXISTS : String := "0x938a92b7"
def BUCKET_NONEMPTY : String := "0x89fddc00"
def FILE_ALREADY_EXISTS : String := "0x6891dde0"
def FILE_INVALID : String := "0x77a3cbd8"
def FILE_NONEXISTS : String := "0x21584586"
def FILE_NONEMPTY : String := "0xc4a3b6f1"
def FILE_NAME_DUPLICATE : String := "0xd09ec7af"
def FILE_FULLY_UPLOADED : String := "0xd96b03b1"
def FILE_CHUNK_DUPLICATE : String := "0x702cf740"
def BLOCK_ALREADY_EXISTS : String := "0xc1edd16a"
def BLOCK_INVALID : String := "0xcb20e88c"
def BLOCK_NONEXISTS : String := "0x15123121"
def INVALID_ARRAY_LENGTH : String := "0x856b300d"
def INVALID_FILE_BLOCKS_COUNT : String := "0x17ec8370"
def INVALID_LAST_BLOCK_SIZE : String := "0x5660ebd2"
def INVALID_ENCODED_SIZE : String := "0x1b6fdfeb"
def INVALID_FILE_CID : String := "0xfe33db92"
def INDEX_MISMATCH : String := "0x37c7f255"
def NO_POLICY : String := "0xcefa6b05"

end SDKErrors

/-- The `ErrorMessages` object of `error-codes.js` as a partial map: JS
property lookup on a key that is absent yields `undefined`, i.e. `none`. -/
def ErrorMessages (code : String) : Option String :=
  if code = SDKErrors.BUCKET_ALREADY_EXISTS then some "Bucket already exists"
  else if code = SDKErrors.BUCKET_INVALID then some "Invalid bucket name"
  else if code = SDKErrors.BUCKET_INVALID_OWNER then some "Invalid bucket owner"
  else if code = SDKErrors.BUCKET_NONEXISTS then some "Bucket does not exist"
  else if code = SDKErrors.BUCKET_NONEMPTY then some "Bucket is not empty"
  else if code = SDKErrors.FILE_ALREADY_EXISTS then some "File already exists"
  else if code = SDKErrors.FILE_INVALID then some "Invalid file name"
  else if code = SDKErrors.FILE_NONEXISTS then some "File does not exist"
  else if code = SDKErrors.FILE_NONEMPTY then some "File is not empty"
  else if code = SDKErrors.FILE_NAME_DUPLICATE then some "Duplicate file name"
  else if code = SDKErrors.FILE_FULLY_UPLOADED then some "File is already fully uploaded"
  else if code = SDKErrors.FILE_CHUNK_DUPLICATE then some "Duplicate file chunk"
  else if code = SDKErrors.BLOCK_ALREADY_EXISTS then some "Block already exists"
  else if code = SDKErrors.BLOCK_INVALID then some "Invalid block"
  else if code = SDKErrors.BLOCK_NONEXISTS then some "Block not found"
  else if code = SDKErrors.INVALID_ARRAY_LENGTH then some "Invalid array length"
  else if code = SDKErrors.INVALID_FILE_BLOCKS_COUNT then some "Invalid file blocks count"
  else if code = SDKErrors.INVALID_LAST_BLOCK_SIZE then some "Invalid last block size"
  else if code = SDKErrors.INVALID_ENCODED_SIZE then some "Invalid encoded size"
  else if code = SDKErrors.INVALID_FILE_CID then some "Invalid file CID"
  else if code = SDKErrors.INDEX_MISMATCH then some "Index mismatch"
  else if code = SDKErrors.NO_POLICY then some "No policy found"
  else if code = "RANGE_ERROR" then some "Requested range not satisfiable"
  else if code = "STREAM_ERROR" then some "Error occurred while streaming file"
  else none

/-- The `ErrorHttpStatus` object of `error-codes.js` as a partial map.  Note
two `SDKErrors` entries have no status here: `FILE_NONEMPTY` (0xc4a3b6f1) and
`INDEX_MISMATCH` (0x37c7f255) are keys of `ErrorMessages` only. -/
def ErrorHttpStatus (code : String) : Option Nat :=
  if code = SDKErrors.BUCKET_ALREADY_EXISTS then some HttpStatus.CONFLICT
  else if code = SDKErrors.BUCKET_INVALID then some HttpStatus.BAD_REQUEST
  else if code = SDKErrors.BUCKET_INVALID_OWNER then some HttpStatus.FORBIDDEN
  else if code = SDKErrors.BUCKET_NONEXISTS then some HttpStatus.NOT_FOUND
  else if code = SDKErrors.BUCKET_NONEMPTY then some HttpStatus.BAD_REQUEST
  else if code = SDKErrors.FILE_ALREADY_EXISTS then some HttpStatus.CONFLICT
  else if code = SDKErrors.FILE_INVALID then some HttpStatus.BAD_REQUEST
  else if code = SDKErrors.FILE_NONEXISTS then some HttpStatus.NOT_FOUND
  else if code = SDKErrors.FILE_FULLY_UPLOADED then some HttpStatus.CONFLICT
  else if code = SDKErrors.FILE_NAME_DUPLICATE then some HttpStatus.CONFLICT
  else if code = SDKErrors.FILE_CHUNK_DUPLICATE then some HttpStatus.CONFLICT
  else if code = SDKErrors.BLOCK_ALREADY_EXISTS then some HttpStatus.CONFLICT
  else if code = SDKErrors.BLOCK_INVALID then some HttpStatus.BAD_REQUEST
  else if code = SDKErrors.BLOCK_NONEXISTS then some HttpStatus.NOT_FOUND
  else if code = SDKErrors.INVALID_ARRAY_LENGTH then some HttpStatus.BAD_REQUEST
  else if code = SDKErrors.INVALID_FILE_BLOCKS_COUNT then some HttpStatus.BAD_REQUEST
  else if code = SDKErrors.INVALID_LAST_BLOCK_SIZE then some HttpStatus.BAD_REQUEST
  else if code = SDKErrors.INVALID_ENCODED_SIZE then some HttpStatus.BAD_REQUEST
  else if code = SDKErrors.INVALID_FILE_CID then some HttpStatus.BAD_REQUEST
  else if code = SDKErrors.NO_POLICY then some HttpStatus.NOT_FOUND
  else if code = "VALIDATION_ERROR" then some HttpStatus.BAD_REQUEST
  else if code = "SYSTEM_ERROR" then some HttpStatus.INTERNAL_SERVER_ERROR
  else if code = "UNKNOWN_ERROR" then some HttpStatus.INTERNAL_SERVER_ERROR
  else if code = "RANGE_ERROR" then some HttpStatus.RANGE_NOT_SATISFIABLE
  else if code = "STREAM_ERROR" then some HttpStatus.INTERNAL_SERVER_ERROR
  else none

/-! ## Classified errors and thrown JavaScript values -/

/-- A Classified Error as built by `createAkaveError`: an `Error` whose `name`
is `AkaveError`, carrying `code`, `message`, `status` and the optional
validation `details` (modelled as a list of field/type pairs; the source also
stores `originalError` and a wall-clock `timestamp`, which no claim concerns
and which are omitted from the model). -/
structure AkaveError where
  code : String
  message : String
  status : Nat
  details : List (String × String)
deriving DecidableEq, Repr

/-- A thrown or constructed JavaScript error value, as distinguished by the
classifier: a classified `AkaveError`, a plain `new Error(msg)`, a runtime
`TypeError` (from calling `trim` on `undefined`), a `ReferenceError` (from
reading an undeclared identifier), or a system error carrying an errno-style
`code` property (as delivered by a failed `spawn`). -/
inductive JsError where
  | akave (e : AkaveError)
  | plain (message : String)
  | typeError (message : String)
  | referenceError (ident : String)
  | sys (code : String) (message : String)
deriving DecidableEq, Repr

/-- JS `error.name`. -/
def errName : JsError → String
  | .akave _ => "AkaveError"
  | .plain _ => "Error"
  | .typeError _ => "TypeError"
  | .referenceError _ => "ReferenceError"
  | .sys _ _ => "Error"

/-- JS `error.message`. -/
def errMessage : JsError → String
  | .akave e => e.message
  | .plain m => m
  | .typeError m => m
  | .referenceError ident => ident ++ " is not defined"
  | .sys _ m => m

/-- JS `error.code` (absent on errors that do not carry one). -/
def errCode : JsError → Option String
  | .akave e => some e.code
  | .sys c _ => some c
  | _ => none

/-- The `createAkaveError` method (`logger.js` lines 164-181).  The status is
set by `ErrorHttpStatus[code] || HttpStatus.INTERNAL_SERVER_ERROR`; however
`HttpStatus` is not among this module's imports (line 45 requires only
`SDKErrors`, `ErrorMessages`, `ErrorHttpStatus` from `error-codes.js`), so
when the registry lookup is falsy, evaluating the fallback raises
`ReferenceError: HttpStatus is not defined` instead of producing an error
value.  A `message` of `none` models passing `undefined` (JS
`new Error(undefined)` leaves `message` as the empty string). -/
def createAkaveError (code : String) (message : Option String)
    (details : List (String × String)) : Except JsError AkaveError :=
  match ErrorHttpStatus code with
  | some status =>
    .ok { code := code, message := message.getD "", status := status, details := details }
  | none => .error (.referenceError "HttpStatus")

/-- The `handleError` method (`logger.js` lines 183-247).  Its `output`
parameter is declared in the source but never read.  The result is the error
value returned, or `Except.error` with the exception `createAkaveError`
raises when it is reached with a code outside `ErrorHttpStatus`. -/
def handleError (error : JsError) (output : String) : Except JsError JsError :=
  if errName error = "AkaveError" then .ok error
  else if containsSub (errMessage error).data "BucketNonempty".data then
    (createAkaveError SDKErrors.BUCKET_NONEMPTY
      (ErrorMessages SDKErrors.BUCKET_NONEMPTY) []).map .akave
  else if containsSub (errMessage error).data "FileFullyUploaded".data then
    (createAkaveError SDKErrors.FILE_FULLY_UPLOADED
      (ErrorMessages SDKErrors.FILE_FULLY_UPLOADED) []).map .akave
  else if errCode error = some "VALIDATION_ERROR" then .ok error
  else
    match findHexCode (errMessage error).data with
    | some errorCode =>
      (createAkaveError errorCode
        (some ((ErrorMessages errorCode).getD "Unknown SDK error")) []).map .akave
    | none =>
      if containsSub (errMessage error).data "Unexpected output format".data
          || containsSub (errMessage error).data "Failed to parse output".data then
        (createAkaveError SDKErrors.BUCKET_INVALID
          (ErrorMessages SDKErrors.BUCKET_INVALID) []).map .akave
      else if errCode error = some "ENOENT" then
        (createAkaveError "SYSTEM_ERROR"
          (some "Command not found: akavecli. Please ensure it is installed correctly.") []).map .akave
      else
        (createAkaveError "UNKNOWN_ERROR"
          (some (if errMessage error = "" then "An unexpected error occurred"
                 else errMessage error)) []).map .akave

/-! ## Parsed values and the output parsers -/

/-- A plain JS object with string values, as built by the record parsers.
Keys are listed in insertion order. -/
abbrev Record : Type := List (String × String)

/-- JS property assignment `obj[k] = v`: overwrite in place if the key is
present, else append. -/
def setProp (r : Record) (k v : String) : Record :=
  if r.any (fun p => p.1 = k) then
    r.map (fun p => if p.1 = k then (k, v) else p)
  else
    r ++ [(k, v)]

/-- JS property read `obj[k]`. -/
def getProp (r : Record) (k : String) : Option String :=
  (r.find? (fun p => p.1 = k)).map (fun p => p.2)

/-- A value resolved by `executeCommand`: a record, a list of records, a raw
string, the (unexamined) value produced by a successful whole-output
`JSON.parse`, or the object produced by spreading a non-record value together
with a `transactionHash` property (which the source never actually reaches,
since only record-producing operations request tracking). -/
inductive JsValue where
  | record (r : Record)
  | records (rs : List Record)
  | str (s : String)
  | jsonOf (raw : String)
  | nonRecordSpread (base : JsValue) (hash : String)
deriving DecidableEq, Repr

/-- The fixed `AkaveError` thrown by the single-record parsers on an invalid
format (`createAkaveError(SDKErrors.BUCKET_INVALID, ...)`, whose status is in
the registry, so construction succeeds). -/
def bucketInvalidError : AkaveError :=
  { code := SDKErrors.BUCKET_INVALID, message := "Invalid bucket name"
    status := HttpStatus.BAD_REQUEST, details := [] }

/-- One iteration of the guarded `key=value` loop of `parseBucketCreation`:
`const [key, value] = info.split("=")` followed by
`if (!key || !value) throw ...` and `bucket[key.trim()] = value.trim()`.
A missing `=` leaves `value` undefined, which is falsy. -/
def parsePairsStrict : List (List Char) → Record → Except JsError Record
  | [], bucket => .ok bucket
  | info :: rest, bucket =>
    match splitOnL '=' [] info with
    | key :: value :: _ =>
      if key = [] ∨ value = [] then .error (.akave bucketInvalidError)
      else parsePairsStrict rest
        (setProp bucket (String.mk (trimL key)) (String.mk (trimL value)))
    | _ => .error (.akave bucketInvalidError)

/-- One iteration of the unguarded `key=value` loop shared by
`parseBucketList`, `parseBucketView`, `parseFileList` and `parseFileInfo`:
`const [key, value] = info.split("=")` followed directly by
`obj[key.trim()] = value.trim()`.  When the pair has no `=`, `value` is
undefined and `value.trim()` raises a `TypeError`. -/
def parsePairsUnsafe : List (List Char) → Record → Except JsError Record
  | [], obj => .ok obj
  | info :: rest, obj =>
    match splitOnL '=' [] info with
    | key :: value :: _ =>
      parsePairsUnsafe rest
        (setProp obj (String.mk (trimL key)) (String.mk (trimL value)))
    | _ => .error (.typeError "Cannot read properties of undefined (reading trim)")

/-- The `parseBucketCreation` method (`logger.js` lines 278-327).  The
`try`/`catch` wrapper rethrows `AkaveError`s unchanged; every exception the
`try` block can actually raise is already the `BUCKET_INVALID` error. -/
def parseBucketCreation (output : String) : Except JsError Record :=
  if jsTrim output = "" then .error (.akave bucketInvalidError)
  else if ¬ startsWithL "Bucket created:".data output.data then
    .error (.akave bucketInvalidError)
  else
    parsePairsStrict (splitOnL ',' [' '] (trimL (output.data.drop "Bucket created:".length))) []

/-- The per-line body of `parseBucketList`: `line.substring(8)` split on
`", "` and folded through the unguarded pair loop. -/
def parseBucketLine (line : List Char) : Except JsError Record :=
  parsePairsUnsafe (splitOnL ',' [' '] (line.drop 8)) []

/-- The loop of `parseBucketList` (`logger.js` lines 329-344) over the
already-split lines. -/
def parseBucketListLines : List (List Char) → Except JsError (List Record)
  | [] => .ok []
  | line :: rest =>
    if startsWithL "Bucket:".data line then
      match parseBucketLine line with
      | .error e => .error e
      | .ok b =>
        match parseBucketListLines rest with
        | .error e => .error e
        | .ok bs => .ok (b :: bs)
    else parseBucketListLines rest

/-- The `parseBucketList` method: split the output on newlines, parse every
line starting with `Bucket:`, skip the rest. -/
def parseBucketList (output : String) : Except JsError (List Record) :=
  parseBucketListLines (splitOnL '\n' [] output.data)

/-- The `parseBucketView` method (`logger.js` lines 346-357): a plain
`Error` on a missing prefix, then the unguarded pair loop on
`output.substring(8)`. -/
def parseBucketView (output : String) : Except JsError Record :=
  if ¬ startsWithL "Bucket:".data output.data then
    .error (.plain "Unexpected output format for bucket view")
  else
    parsePairsUnsafe (splitOnL ',' [' '] (output.data.drop 8)) []

/-- The `parseBucketDeletion` method (`logger.js` lines 359-378). -/
def parseBucketDeletion (output : String) : Except JsError Record :=
  if containsSub output.data "BucketNonempty".data then
    .error (.akave
      { code := SDKErrors.BUCKET_NONEMPTY, message := "Bucket is not empty"
        status := HttpStatus.BAD_REQUEST, details := [] })
  else if ¬ startsWithL "Bucket deleted:".data output.data then
    .error (.akave bucketInvalidError)
  else
    .ok [("message", "Bucket deleted successfully")]

/-- The per-line body of `parseFileList`: `line.substring(6)` split on `", "`
and folded through the unguarded pair loop. -/
def parseFileLine (line : List Char) : Except JsError Record :=
  parsePairsUnsafe (splitOnL ',' [' '] (line.drop 6)) []

/-- The loop of `parseFileList` (`logger.js` lines 380-399) over the
already-split lines. -/
def parseFileListLines : List (List Char) → Except JsError (List Record)
  | [] => .ok []
  | line :: rest =>
    if startsWithL "File:".data line then
      match parseFileLine line with
      | .error e => .error e
      | .ok f =>
        match parseFileListLines rest with
        | .error e => .error e
        | .ok fs => .ok (f :: fs)
    else parseFileListLines rest

/-- The `parseFileList` method: split the output on newlines, parse every
line starting with `File:`, skip the rest. -/
def parseFileList (output : String) : Except JsError (List Record) :=
  parseFileListLines (splitOnL '\n' [] output.data)

/-- The `parseFileInfo` method (`logger.js` lines 401-415). -/
def parseFileInfo (output : String) : Except JsError Record :=
  if ¬ startsWithL "File:".data output.data then
    .error (.plain "Unexpected output format for file info")
  else
    parsePairsUnsafe (splitOnL ',' [' '] (output.data.drop 6)) []

/-- The `parseFileUpload` method (`logger.js` lines 417-445). -/
def parseFileUpload (output : String) : Except JsError Record :=
  if containsSub output.data "FileFullyUploaded".data then
    .error (.akave
      { code := SDKErrors.FILE_FULLY_UPLOADED, message := "File is already fully uploaded"
        status := HttpStatus.CONFLICT, details := [] })
  else
    match (splitOnL '\n' [] output.data).find?
        (fun line => containsSub line "File uploaded successfully:".data) with
    | none => .error (.plain ("File upload failed: " ++ output))
    | some successLine =>
      parsePairsUnsafe
        (splitOnL ',' [' ']
          (trimL (dropThroughSub "File uploaded successfully:".data successLine))) []

/-- The `parseOutput` method (`logger.js` lines 249-276).  The initial
whole-output `JSON.parse` attempt is abstracted by the predicate `jsonOk`:
when it holds, the parsed JSON value (`JsValue.jsonOf output`) is returned
directly; otherwise control falls through to the parser selected by the
`parser` tag, with unknown tags returning the raw output. -/
def parseOutput (jsonOk : String → Bool) (output parser : String) :
    Except JsError JsValue :=
  if jsonOk output then .ok (.jsonOf output)
  else if parser = "createBucket" then (parseBucketCreation output).map .record
  else if parser = "listBuckets" then (parseBucketList output).map .records
  else if parser = "viewBucket" then (parseBucketView output).map .record
  else if parser = "deleteBucket" then (parseBucketDeletion output).map .record
  else if parser = "listFiles" then (parseFileList output).map .records
  else if parser = "fileInfo" then (parseFileInfo output).map .record
  else if parser = "uploadFile" then (parseFileUpload output).map .record
  else if parser = "downloadFile" then .ok (.str output)
  else .ok (.str output)

/-! ## The command executor -/

/-- How one `executeCommand` subprocess invocation ends: the promise resolves
with a value, the promise rejects with an error value, or the callback itself
raises an exception that reaches no `reject` (an uncaught exception). -/
inductive ExecOutcome where
  | resolved (v : JsValue)
  | rejected (e : JsError)
  | uncaught (e : JsError)
deriving DecidableEq, Repr

/-- The exit-code-zero arm of the `close` handler (`logger.js` lines
120-128): run `parseOutput` inside `try`, resolve on success, and on an
exception reject with `handleError(error, output)` (which itself can raise,
leaving the exception uncaught). -/
def parseAndClassify (jsonOk : String → Bool) (output parser : String) :
    ExecOutcome :=
  match parseOutput jsonOk output parser with
  | .ok v => .resolved v
  | .error e =>
    match handleError e output with
    | .ok e2 => .rejected e2
    | .error je => .uncaught je

/-- The `close` handler of `executeCommand` (`logger.js` lines 80-133),
as a function of the final exit code and the two accumulated stream buffers:
first the stderr inspection (leftmost embedded hex code via the registry,
then the two literal substrings), regardless of exit code; then the exit-code
dispatch to parsing or to the generic `handleError` fallback. -/
def executeCommandClose (jsonOk : String → Bool) (exitCode : Int)
    (stdout stderr parser : String) : ExecOutcome :=
  let output := jsTrim (stdout ++ stderr)
  if stderr = "" then
    if exitCode = 0 then parseAndClassify jsonOk output parser
    else
      match handleError (.plain output) output with
      | .ok e2 => .rejected e2
      | .error je => .uncaught je
  else
    match findHexCode stderr.data with
    | some errorCode =>
      match createAkaveError errorCode (ErrorMessages errorCode) [] with
      | .ok e => .rejected (.akave e)
      | .error je => .uncaught je
    | none =>
      if containsSub stderr.data "BucketNonempty".data then
        match createAkaveError SDKErrors.BUCKET_NONEMPTY
            (ErrorMessages SDKErrors.BUCKET_NONEMPTY) [] with
        | .ok e => .rejected (.akave e)
        | .error je => .uncaught je
      else if containsSub stderr.data "FileFullyUploaded".data then
        match createAkaveError SDKErrors.FILE_FULLY_UPLOADED
            (ErrorMessages SDKErrors.FILE_FULLY_UPLOADED) [] with
        | .ok e => .rejected (.akave e)
        | .error je => .uncaught je
      else if exitCode = 0 then parseAndClassify jsonOk output parser
      else
        match handleError (.plain stderr) output with
        | .ok e2 => .rejected e2
        | .error je => .uncaught je

/-- How the spawned process signals completion to the executor: either the
`error` event fires with a system error (e.g. the binary is missing), or the
`close` event fires with an exit code after both stream buffers are final. -/
inductive SpawnResult where
  | errored (err : JsError)
  | closed (exitCode : Int) (stdout stderr : String)
deriving DecidableEq, Repr

/-- The promise body of `executeCommand`: dispatch on how the subprocess
ended.  The `error` handler rejects with `handleError(err)` (`logger.js`
lines 135-139). -/
def executeCommandProc (jsonOk : String → Bool) (sp : SpawnResult)
    (parser : String) : ExecOutcome :=
  match sp with
  | .errored err =>
    match handleError err "" with
    | .ok e2 => .rejected e2
    | .error je => .uncaught je
  | .closed exitCode stdout stderr =>
    executeCommandClose jsonOk exitCode stdout stderr parser

/-- The outcome of the `getLatestTransaction` collaborator call: the promise
rejected, or it resolved with a hash or with `null`. -/
inductive LookupOutcome where
  | threw
  | notFound
  | found (hash : String)
deriving DecidableEq, Repr

/-- JS `{ ...result, transactionHash: txHash }`.  On a record this adds (or
overwrites) the one property; on any non-record value the object spread
produces an unrelated object, kept abstract here (the source only tracks
transactions for record-producing operations). -/
def spreadWithHash : JsValue → String → JsValue
  | .record r, h => .record (setProp r "transactionHash" h)
  | v, h => .nonRecordSpread v h

/-- The whole of `executeCommand` (`logger.js` lines 59-162): await the
subprocess promise, and if `trackTransaction` was requested and the promise
resolved, attempt the transaction-hash enrichment — a lookup rejection or a
missing (falsy) hash leaves the result untouched. -/
def executeCommand (jsonOk : String → Bool) (sp : SpawnResult)
    (parser : String) (trackTransaction : Bool) (lookup : LookupOutcome) :
    ExecOutcome :=
  match executeCommandProc jsonOk sp parser with
  | .resolved result =>
    if trackTransaction then
      match lookup with
      | .found txHash =>
        if txHash = "" then .resolved result
        else .resolved (spreadWithHash result txHash)
      | _ => .resolved result
    else .resolved result
  | other => other

/-! ## Input validation and the operation wrappers -/

/-- A JS value handed to an operation as a bucket or file name: absent
(`undefined`), some non-string (represented by a number), or a string. -/
inductive JsInput where
  | undef
  | num (n : Int)
  | str (s : String)
deriving DecidableEq, Repr

/-- JS falsiness of a `JsInput`. -/
def jsFalsyInput : JsInput → Bool
  | .undef => true
  | .num n => n = 0
  | .str s => s = ""

/-- The name test of `validateInput`:
`!name || typeof name !== "string" || !name.trim()`. -/
def isInvalidName (v : JsInput) : Bool :=
  jsFalsyInput v
    || (match v with | .str _ => false | _ => true)
    || (match v with | .str s => jsTrim s = "" | _ => false)

/-- The string used when an input reaches the argument list: the spawn
arguments stringify their elements. -/
def JsInput.display : JsInput → String
  | .undef => "undefined"
  | .num n => toString n
  | .str s => s

/-- The `validateInput` method (`logger.js` lines 555-602), restricted to the
`bucket` shape (the `file` shape is never invoked in this module): returns
the `VALIDATION_ERROR` classified error, or `none` for a valid name.
`VALIDATION_ERROR` is in `ErrorHttpStatus`, so `createAkaveError` cannot
raise on this path. -/
def validateInput (type_ : String) (bucketName : JsInput) : Option AkaveError :=
  if type_ = "bucket" then
    if isInvalidName bucketName then
      some { code := "VALIDATION_ERROR", message := "Invalid bucket name"
             status := HttpStatus.BAD_REQUEST
             details := [("bucketName", "required")] }
    else none
  else none

/-- What an operation wrapper does before any subprocess output exists:
either it throws a validation error synchronously, or it reaches
`executeCommand` and a process is spawned with the given arguments, parser
tag and tracking flag. -/
inductive OpAction where
  | threw (e : JsError)
  | spawned (args : List String) (parser : String) (trackTransaction : Bool)
deriving DecidableEq, Repr

/-- The client state: node address and (0x-stripped) private key. -/
structure Client where
  nodeAddress : String
  privateKey : String
deriving DecidableEq, Repr

/-- The trailing credential flags every invocation receives. -/
def credFlags (c : Client) : List String :=
  ["--node-address=" ++ c.nodeAddress, "--private-key=" ++ c.privateKey]

/-- The `createBucket` method (`logger.js` lines 451-466): validate first,
spawn only when validation passes. -/
def createBucket (c : Client) (bucketName : JsInput) : OpAction :=
  match validateInput "bucket" bucketName with
  | some e => .threw (.akave e)
  | none =>
    .spawned (["ipc", "bucket", "create", bucketName.display] ++ credFlags c)
      "createBucket" true

/-- The `deleteBucket` method (`logger.js` lines 468-478): no validation of
any kind precedes the spawn. -/
def deleteBucket (c : Client) (bucketName : JsInput) : OpAction :=
  .spawned (["ipc", "bucket", "delete", bucketName.display] ++ credFlags c)
    "deleteBucket" true

/-- The `viewBucket` method (`logger.js` lines 480-490): no validation. -/
def viewBucket (c : Client) (bucketName : JsInput) : OpAction :=
  .spawned (["ipc", "bucket", "view", bucketName.display] ++ credFlags c)
    "viewBucket" false

/-- The `listFiles` method (`logger.js` lines 503-513): no validation. -/
def listFiles (c : Client) (bucketName : JsInput) : OpAction :=
  .spawned (["ipc", "file", "list", bucketName.display] ++ credFlags c)
    "listFiles" false

/-- The `getFileInfo` method (`logger.js` lines 515-526): no validation. -/
def getFileInfo (c : Client) (bucketName fileName : JsInput) : OpAction :=
  .spawned (["ipc", "file", "info", bucketName.display, fileName.display] ++ credFlags c)
    "fileInfo" false

/-- A `jsonOk` instantiation for concrete scenarios in which the combined
output is not valid JSON (every concrete output below starts with an
alphabetic character, which no JSON value can). -/
def jsonOkNever : String → Bool := fun _ => false

/-! ## Helper lemmas -/

instance {e a : Type} [DecidableEq e] [DecidableEq a] : DecidableEq (Except e a) := fun x y =>
  match x, y with
  | .ok u, .ok v =>
    if h : u = v then isTrue (congrArg Except.ok h)
    else isFalse (fun hc => h (Except.ok.inj hc))
  | .error u, .error v =>
    if h : u = v then isTrue (congrArg Except.error h)
    else isFalse (fun hc => h (Except.error.inj hc))
  | .ok _, .error _ => isFalse (fun hc => Except.noConfusion hc)
  | .error _, .ok _ => isFalse (fun hc => Except.noConfusion hc)

theorem findHexCode_nil : findHexCode [] = none := rfl

theorem ne_empty_of_findHexCode {s : String} {c : String}
    (h : findHexCode s.data = some c) : s ≠ "" := by
  intro hs
  rw [hs] at h
  exact Option.noConfusion (findHexCode_nil ▸ h)

theorem containsSub_nil_cons (c : Char) (cs : List Char) :
    containsSub [] (c :: cs) = false := rfl

theorem ne_empty_of_containsSub {s : String} {c : Char} {cs : List Char}
    (h : containsSub s.data (c :: cs) = true) : s ≠ "" := by
  intro hs
  rw [hs] at h
  exact Bool.noConfusion (containsSub_nil_cons c cs ▸ h)

theorem startsWithL_self_append (pat rest : List Char) :
    startsWithL pat (pat ++ rest) = true := by
  induction pat with
  | nil => rfl
  | cons p ps ih => simp [startsWithL, ih]

theorem parseOutput_createBucket (jsonOk : String → Bool) (output : String)
    (h : jsonOk output = false) :
    parseOutput jsonOk output "createBucket" = (parseBucketCreation output).map .record := by
  unfold parseOutput
  rw [h]
  simp

theorem parseOutput_viewBucket (jsonOk : String → Bool) (output : String)
    (h : jsonOk output = false) :
    parseOutput jsonOk output "viewBucket" = (parseBucketView output).map .record := by
  unfold parseOutput
  rw [h]
  simp

theorem parseOutput_fileInfo (jsonOk : String → Bool) (output : String)
    (h : jsonOk output = false) :
    parseOutput jsonOk output "fileInfo" = (parseFileInfo output).map .record := by
  unfold parseOutput
  rw [h]
  simp

/-! ## Claim C1 -/

/-- C1 (corrected).  If the leftmost `0x` + 8-hex-digit match of the regex in
the accumulated stderr is a code present in the registry, `executeCommand`
rejects with a classified error whose `code` is that match, whose `status` is
the registry status and whose `message` is the registry message, regardless
of exit code (including 0) and of stdout.  (The original claim, for a
registry code merely contained somewhere in stderr, is refuted by the
counterexample: an earlier non-registry hex match wins and classification
then raises an uncaught `ReferenceError`.) -/
theorem C1_first_hex_match_in_registry_rejects (jsonOk : String → Bool)
    (exitCode : Int) (stdout stderr parser : String) (code : String) (st : Nat)
    (hmatch : findHexCode stderr.data = some code)
    (hreg : ErrorHttpStatus code = some st) :
    executeCommandClose jsonOk exitCode stdout stderr parser =
      .rejected (.akave { code := code, message := (ErrorMessages code).getD ""
                          status := st, details := [] }) := by
  have hne : stderr ≠ "" := ne_empty_of_findHexCode hmatch
  unfold executeCommandClose
  rw [if_neg hne]
  simp only [hmatch, createAkaveError, hreg]

/-- C1 witness: stderr whose first hex match is the registry code
`0x89fddc00` (BUCKET_NONEMPTY), with exit code 0, rejects with that code and
status 400. -/
theorem C1_witness :
    findHexCode ("exit ok but 0x89fddc00" : String).data = some "0x89fddc00"
    ∧ ErrorHttpStatus "0x89fddc00" = some 400
    ∧ executeCommandClose jsonOkNever 0 "stdout text" "exit ok but 0x89fddc00" "deleteBucket" =
        .rejected (.akave { code := "0x89fddc00"
                            message := (ErrorMessages "0x89fddc00").getD ""
                            status := 400, details := [] }) :=
  ⟨by decide, by decide,
    C1_first_hex_match_in_registry_rejects jsonOkNever 0 "stdout text"
      "exit ok but 0x89fddc00" "deleteBucket" "0x89fddc00" 400 (by decide) (by decide)⟩

/-- C1 counterexample: the stderr text contains the registry code
`0x89fddc00` (mapped to status 400), yet because the leftmost regex match is
the non-registry code `0xdeadbeef`, the `close` handler calls
`createAkaveError` with a code outside `ErrorHttpStatus` and the undeclared
`HttpStatus` fallback raises — the promise is never rejected with the claimed
classified error, the exception escapes the callback instead. -/
theorem C1_counterexample :
    containsSub ("0xdeadbeef 0x89fddc00" : String).data ("0x89fddc00" : String).data = true
    ∧ ErrorHttpStatus "0x89fddc00" = some 400
    ∧ executeCommandClose jsonOkNever 1 "" "0xdeadbeef 0x89fddc00" "deleteBucket" =
        .uncaught (.referenceError "HttpStatus") := by
  refine ⟨by decide, by decide, by decide⟩

/-! ## Claim C2 -/

/-- C2 (code bug).  The source line
`error.status = ErrorHttpStatus[code] || HttpStatus.INTERNAL_SERVER_ERROR`
plainly intends the 500 fallback for codes outside the registry, but
`HttpStatus` is never imported into the client module, so for any such code
`createAkaveError` raises `ReferenceError: HttpStatus is not defined` instead
of producing an error value with a status.  Witnessed at the SDK code
`0xc4a3b6f1` (FILE_NONEMPTY), which has a message but no `ErrorHttpStatus`
entry: constructing the classified error raises, and a subprocess whose
stderr carries that code ends in an uncaught exception, not a rejection. -/
theorem C2_fallback_raises_reference_error :
    ErrorHttpStatus SDKErrors.FILE_NONEMPTY = none
    ∧ createAkaveError SDKErrors.FILE_NONEMPTY (ErrorMessages SDKErrors.FILE_NONEMPTY) [] =
        .error (.referenceError "HttpStatus")
    ∧ executeCommandClose jsonOkNever 0 "" "error 0xc4a3b6f1" "default" =
        .uncaught (.referenceError "HttpStatus") := by
  refine ⟨by decide, by decide, by decide⟩

/-! ## Claim C3 -/

/-- C3 (corrected).  For a completed invocation whose stderr contains no
8-hex-digit code: if stderr contains the literal `BucketNonempty`, the
executor rejects with the classified error
`code = 0x89fddc00 (BUCKET_NONEMPTY), status = 400`; if stderr does not
contain `BucketNonempty` but contains `FileFullyUploaded`, it rejects with
`code = 0xd96b03b1 (FILE_FULLY_UPLOADED), status = 409`; in both cases
regardless of exit code and stdout.  (The original claim omitted the
precedence of the `BucketNonempty` check for the `FileFullyUploaded` half;
see the counterexample.) -/
theorem C3_literal_substrings_reject (jsonOk : String → Bool) (exitCode : Int)
    (stdout stderr parser : String)
    (hnohex : findHexCode stderr.data = none) :
    (containsSub stderr.data "BucketNonempty".data = true →
      executeCommandClose jsonOk exitCode stdout stderr parser =
        .rejected (.akave { code := "0x89fddc00", message := "Bucket is not empty"
                            status := 400, details := [] }))
    ∧ (containsSub stderr.data "BucketNonempty".data = false →
       containsSub stderr.data "FileFullyUploaded".data = true →
      executeCommandClose jsonOk exitCode stdout stderr parser =
        .rejected (.akave { code := "0xd96b03b1", message := "File is already fully uploaded"
                            status := 409, details := [] })) := by
  constructor
  · intro h1
    have hne : stderr ≠ "" := ne_empty_of_containsSub h1
    unfold executeCommandClose
    rw [if_neg hne]
    simp [hnohex, h1]
    decide
  · intro h1 h2
    have hne : stderr ≠ "" := ne_empty_of_containsSub h2
    unfold executeCommandClose
    rw [if_neg hne]
    simp [hnohex, h1, h2]
    decide

/-- C3 witness: both halves of the corrected claim applied at concrete
stderr texts, one per literal substring, each with a nonzero and a zero exit
code respectively. -/
theorem C3_witness :
    executeCommandClose jsonOkNever 1 "out" "delete failed: BucketNonempty" "deleteBucket" =
      .rejected (.akave { code := "0x89fddc00", message := "Bucket is not empty"
                          status := 400, details := [] })
    ∧ executeCommandClose jsonOkNever 0 "" "FileFullyUploaded" "uploadFile" =
        .rejected (.akave { code := "0xd96b03b1", message := "File is already fully uploaded"
                            status := 409, details := [] }) :=
  ⟨(C3_literal_substrings_reject jsonOkNever 1 "out" "delete failed: BucketNonempty"
      "deleteBucket" (by decide)).1 (by decide),
   (C3_literal_substrings_reject jsonOkNever 0 "" "FileFullyUploaded"
      "uploadFile" (by decide)).2 (by decide) (by decide)⟩

/-- C3 counterexample: a stderr that contains `FileFullyUploaded` (and no
hex code) but also contains `BucketNonempty` is classified as
`BUCKET_NONEMPTY`/400, not as `FILE_FULLY_UPLOADED`/409 as the claim
requires for every stderr containing `FileFullyUploaded`. -/
theorem C3_counterexample :
    containsSub ("BucketNonempty FileFullyUploaded" : String).data
        ("FileFullyUploaded" : String).data = true
    ∧ findHexCode ("BucketNonempty FileFullyUploaded" : String).data = none
    ∧ executeCommandClose jsonOkNever 1 "" "BucketNonempty FileFullyUploaded" "uploadFile" =
        .rejected (.akave { code := "0x89fddc00", message := "Bucket is not empty"
                            status := 400, details := [] }) := by
  refine ⟨by decide, by decide, by decide⟩

/-! ## Claim C4 -/

theorem parsePairsStrict_classify (infos : List (List Char)) :
    ∀ acc : Record,
      (∃ r, parsePairsStrict infos acc = .ok r) ∨
        parsePairsStrict infos acc = .error (.akave bucketInvalidError) := by
  induction infos with
  | nil => intro acc; exact .inl ⟨acc, rfl⟩
  | cons info rest ih =>
    intro acc
    rcases h : splitOnL '=' [] info with _ | ⟨key, _ | ⟨value, t2⟩⟩ <;>
      simp only [parsePairsStrict, h]
    · exact .inr trivial
    · exact .inr trivial
    · by_cases hk : key = [] ∨ value = []
      · rw [if_pos hk]; exact .inr rfl
      · rw [if_neg hk]; exact ih _

/-- C4 (corrected).  How single-record parse failures are classified:
for the bucket-creation kind, every outcome is either a parsed record or the
single `BUCKET_INVALID` classified error (both the missing-prefix and the
pair-without-`=` failures included); for the bucket-view and file-info kinds
a missing prefix is classified as `BUCKET_INVALID` (status 400) through
`handleError`, but a comma-separated pair with no `=` raises a `TypeError`
inside the parser, which `handleError` classifies as the generic
`UNKNOWN_ERROR` with status 500 — not as `BUCKET_INVALID` as the original
claim states (see the counterexample). -/
theorem C4_single_record_failure_classification (output : String)
    (jsonOk : String → Bool) (hjson : jsonOk output = false) :
    ((∃ r, parseBucketCreation output = .ok r) ∨
      parseBucketCreation output = .error (.akave bucketInvalidError))
    ∧ (startsWithL "Bucket:".data output.data = false →
        parseAndClassify jsonOk output "viewBucket" = .rejected (.akave bucketInvalidError))
    ∧ (startsWithL "File:".data output.data = false →
        parseAndClassify jsonOk output "fileInfo" = .rejected (.akave bucketInvalidError))
    ∧ parseAndClassify jsonOkNever "Bucket: Name" "viewBucket" =
        .rejected (.akave { code := "UNKNOWN_ERROR"
                            message := "Cannot read properties of undefined (reading trim)"
                            status := 500, details := [] }) := by
  refine ⟨?_, ?_, ?_, by decide⟩
  · unfold parseBucketCreation
    by_cases h1 : jsTrim output = ""
    · rw [if_pos h1]; exact .inr rfl
    · rw [if_neg h1]
      by_cases h2 : startsWithL "Bucket created:".data output.data
      · simp only [h2]
        simp
        exact parsePairsStrict_classify _ _
      · simp only [h2]
        simp
  · intro hpre
    have hview : parseBucketView output = .error (.plain "Unexpected output format for bucket view") := by
      unfold parseBucketView
      rw [hpre]
      simp
    unfold parseAndClassify
    rw [parseOutput_viewBucket jsonOk output hjson, hview]
    rfl
  · intro hpre
    have hinfo : parseFileInfo output = .error (.plain "Unexpected output format for file info") := by
      unfold parseFileInfo
      rw [hpre]
      simp
    unfold parseAndClassify
    rw [parseOutput_fileInfo jsonOk output hjson, hinfo]
    rfl

/-- C4 witness: the corrected claim applied at the concrete output `nope`,
which lacks all three prefixes. -/
theorem C4_witness :
    ((∃ r, parseBucketCreation "nope" = .ok r) ∨
      parseBucketCreation "nope" = .error (.akave bucketInvalidError))
    ∧ parseAndClassify jsonOkNever "nope" "viewBucket" = .rejected (.akave bucketInvalidError)
    ∧ parseAndClassify jsonOkNever "nope" "fileInfo" = .rejected (.akave bucketInvalidError) := by
  have h := C4_single_record_failure_classification "nope" jsonOkNever rfl
  exact ⟨h.1, h.2.1 (by decide), h.2.2.1 (by decide)⟩

/-- C4 counterexample: the bucket-view output `Bucket: Name` has the
required prefix and contains a comma-separated pair with no `=`.  The parser
raises a `TypeError` from `value.trim()` on `undefined`, and the executor
surfaces it as the `UNKNOWN_ERROR` classified error with status 500 — not
the claimed `BUCKET_INVALID`/invalid-format error. -/
theorem C4_counterexample :
    parseBucketView "Bucket: Name" =
      .error (.typeError "Cannot read properties of undefined (reading trim)")
    ∧ executeCommandClose jsonOkNever 0 "Bucket: Name" "" "viewBucket" =
        .rejected (.akave { code := "UNKNOWN_ERROR"
                            message := "Cannot read properties of undefined (reading trim)"
                            status := 500, details := [] })
    ∧ bucketInvalidError.code = "0x4f4b202a" := by
  refine ⟨by decide, by decide, by decide⟩

/-! ## Claim C5 -/

theorem parseBucketListLines_filter (lines : List (List Char)) :
    parseBucketListLines (lines.filter (fun l => startsWithL "Bucket:".data l)) =
      parseBucketListLines lines := by
  induction lines with
  | nil => rfl
  | cons line rest ih =>
    by_cases h : startsWithL "Bucket:".data line = true
    · rw [List.filter_cons_of_pos (by simpa using h)]
      simp only [parseBucketListLines, h, if_true, ih]
    · rw [List.filter_cons_of_neg (by simpa using h)]
      simp only [parseBucketListLines]
      rw [if_neg (by simpa using h), ih]

theorem parseFileListLines_filter (lines : List (List Char)) :
    parseFileListLines (lines.filter (fun l => startsWithL "File:".data l)) =
      parseFileListLines lines := by
  induction lines with
  | nil => rfl
  | cons line rest ih =>
    by_cases h : startsWithL "File:".data line = true
    · rw [List.filter_cons_of_pos (by simpa using h)]
      simp only [parseFileListLines, h, if_true, ih]
    · rw [List.filter_cons_of_neg (by simpa using h)]
      simp only [parseFileListLines]
      rw [if_neg (by simpa using h), ih]

/-- C5 (confirmed).  The list parsers depend only on the lines that start
with their record prefix: removing every non-matching line leaves the result
unchanged (non-matching lines are silently skipped), and when no line starts
with the prefix the parser returns the empty list successfully — not an
error. -/
theorem C5_list_parsers_skip_nonmatching (output : String) :
    parseBucketList output =
      parseBucketListLines
        ((splitOnL '\n' [] output.data).filter (fun l => startsWithL "Bucket:".data l))
    ∧ parseFileList output =
      parseFileListLines
        ((splitOnL '\n' [] output.data).filter (fun l => startsWithL "File:".data l))
    ∧ ((∀ l ∈ splitOnL '\n' [] output.data, ¬ startsWithL "Bucket:".data l) →
        parseBucketList output = .ok [])
    ∧ ((∀ l ∈ splitOnL '\n' [] output.data, ¬ startsWithL "File:".data l) →
        parseFileList output = .ok []) := by
  refine ⟨(parseBucketListLines_filter _).symm, (parseFileListLines_filter _).symm, ?_, ?_⟩
  · intro h
    have hf : (splitOnL '\n' [] output.data).filter
        (fun l => startsWithL "Bucket:".data l) = [] := by
      rw [List.filter_eq_nil_iff]
      intro a ha
      simpa using h a ha
    unfold parseBucketList
    rw [← parseBucketListLines_filter, hf]
    rfl
  · intro h
    have hf : (splitOnL '\n' [] output.data).filter
        (fun l => startsWithL "File:".data l) = [] := by
      rw [List.filter_eq_nil_iff]
      intro a ha
      simpa using h a ha
    unfold parseFileList
    rw [← parseFileListLines_filter, hf]
    rfl

/-- C5 witness: applied at an output none of whose lines carries either
prefix, so both list parsers succeed with the empty list. -/
theorem C5_witness :
    parseBucketList "no buckets here\njust noise" = .ok []
    ∧ parseFileList "no buckets here\njust noise" = .ok [] :=
  ⟨(C5_list_parsers_skip_nonmatching "no buckets here\njust noise").2.2.1 (by decide),
   (C5_list_parsers_skip_nonmatching "no buckets here\njust noise").2.2.2 (by decide)⟩

/-! ## Claim C6 -/

theorem find?_map_overwrite (r : Record) (k v k' : String) (h : k' ≠ k) :
    (r.map (fun p => if p.1 = k then (k, v) else p)).find? (fun p => p.1 = k') =
      r.find? (fun p => p.1 = k') := by
  induction r with
  | nil => rfl
  | cons a rest ih =>
    by_cases ha : a.1 = k
    · simp only [List.map_cons, if_pos ha, List.find?_cons]
      have h1 : (decide (k = k')) = false := decide_eq_false (Ne.symm h)
      have h2 : (decide (a.1 = k')) = false :=
        decide_eq_false (fun hc => (Ne.symm h) (ha.symm.trans hc))
      rw [h1, h2]
      exact ih
    · simp only [List.map_cons, if_neg ha, List.find?_cons]
      cases hd : decide (a.1 = k') <;> simp [ih]

theorem find?_append_overwrite (r : Record) (k v k' : String) (h : k' ≠ k) :
    (r ++ [(k, v)]).find? (fun p => p.1 = k') = r.find? (fun p => p.1 = k') := by
  induction r with
  | nil =>
    simp only [List.nil_append, List.find?_cons, List.find?_nil]
    have h1 : (decide (k = k')) = false := decide_eq_false (Ne.symm h)
    rw [h1]
  | cons a rest ih =>
    simp only [List.cons_append, List.find?_cons]
    cases hd : decide (a.1 = k') <;> simp [ih]

theorem getProp_setProp_ne (r : Record) (k v k' : String) (h : k' ≠ k) :
    getProp (setProp r k v) k' = getProp r k' := by
  unfold getProp setProp
  by_cases hany : r.any (fun p => p.1 = k)
  · rw [if_pos (by simpa using hany), find?_map_overwrite r k v k' h]
  · rw [if_neg (by simpa using hany), find?_append_overwrite r k v k' h]

/-- C6 (confirmed).  Transaction-hash enrichment never turns a resolved
result into a failure: when the subprocess promise resolved with `v`, a
lookup that throws or returns `null` leaves `executeCommand` resolving with
exactly `v`; and when the lookup finds a (non-empty) hash and `v` is a
record, the final value is `v` with only the `transactionHash` property
added — every other property reads the same as before. -/
theorem C6_enrichment_preserves_result (jsonOk : String → Bool)
    (sp : SpawnResult) (parser : String) (v : JsValue)
    (hres : executeCommandProc jsonOk sp parser = .resolved v) :
    executeCommand jsonOk sp parser true .threw = .resolved v
    ∧ executeCommand jsonOk sp parser true .notFound = .resolved v
    ∧ ∀ hash r, hash ≠ "" → v = .record r →
        executeCommand jsonOk sp parser true (.found hash) =
          .resolved (.record (setProp r "transactionHash" hash))
        ∧ ∀ k, k ≠ "transactionHash" →
            getProp (setProp r "transactionHash" hash) k = getProp r k := by
  refine ⟨?_, ?_, ?_⟩
  · unfold executeCommand
    rw [hres]
    rfl
  · unfold executeCommand
    rw [hres]
    rfl
  · intro hash r hhash hv
    constructor
    · unfold executeCommand
      rw [hres, hv]
      simp [hhash, spreadWithHash]
    · intro k hk
      exact getProp_setProp_ne r "transactionHash" hash k hk

/-- C6 witness: a concrete resolved bucket-creation record, enriched under
each lookup outcome; the found-hash case adds exactly the `transactionHash`
property and leaves the `Name` property readable unchanged. -/
theorem C6_witness :
    executeCommand jsonOkNever (.closed 0 "Bucket created: Name=x" "") "createBucket" true .threw =
      .resolved (.record [("Name", "x")])
    ∧ executeCommand jsonOkNever (.closed 0 "Bucket created: Name=x" "") "createBucket" true .notFound =
      .resolved (.record [("Name", "x")])
    ∧ executeCommand jsonOkNever (.closed 0 "Bucket created: Name=x" "") "createBucket" true
        (.found "0xfeed") =
      .resolved (.record (setProp [("Name", "x")] "transactionHash" "0xfeed"))
    ∧ getProp (setProp [("Name", "x")] "transactionHash" "0xfeed") "Name" =
        getProp [("Name", "x")] "Name" := by
  have h := C6_enrichment_preserves_result jsonOkNever
    (.closed 0 "Bucket created: Name=x" "") "createBucket" (.record [("Name", "x")]) (by decide)
  have h3 := h.2.2 "0xfeed" [("Name", "x")] (by decide) rfl
  exact ⟨h.1, h.2.1, h3.1, h3.2 "Name" (by decide)⟩

/-! ## Claim C7 -/

/-- C7 (confirmed, Scenario A).  A bucket-creation invocation whose stdout
is exactly `Bucket created: Name=mybucket, Owner=0xabc`, whose stderr is
empty and whose exit code is 0 resolves with the record
`Name = mybucket, Owner = 0xabc` (keys and values trimmed); the hypothesis
records that the combined output is not valid JSON (it starts with `B`), so
the whole-text `JSON.parse` attempt falls through. -/
theorem C7_scenario_A (jsonOk : String → Bool)
    (hjson : jsonOk "Bucket created: Name=mybucket, Owner=0xabc" = false) :
    executeCommand jsonOk
        (.closed 0 "Bucket created: Name=mybucket, Owner=0xabc" "") "createBucket" true .notFound
      = .resolved (.record [("Name", "mybucket"), ("Owner", "0xabc")]) := by
  have hout : jsTrim ("Bucket created: Name=mybucket, Owner=0xabc" ++ "") =
      "Bucket created: Name=mybucket, Owner=0xabc" := by decide
  have hparse : parseAndClassify jsonOk "Bucket created: Name=mybucket, Owner=0xabc"
      "createBucket" = .resolved (.record [("Name", "mybucket"), ("Owner", "0xabc")]) := by
    unfold parseAndClassify
    rw [parseOutput_createBucket jsonOk _ hjson]
    rfl
  have hproc : executeCommandProc jsonOk
      (.closed 0 "Bucket created: Name=mybucket, Owner=0xabc" "") "createBucket" =
      .resolved (.record [("Name", "mybucket"), ("Owner", "0xabc")]) := by
    show executeCommandClose jsonOk 0 "Bucket created: Name=mybucket, Owner=0xabc" ""
        "createBucket" = _
    unfold executeCommandClose
    simp only [hout]
    simp only [if_true]
    exact hparse
  unfold executeCommand
  rw [hproc]
  rfl

/-- C7 witness: the theorem applied with the JSON-parse predicate that fails
on every input. -/
theorem C7_witness :
    jsonOkNever "Bucket created: Name=mybucket, Owner=0xabc" = false
    ∧ executeCommand jsonOkNever
        (.closed 0 "Bucket created: Name=mybucket, Owner=0xabc" "") "createBucket" true .notFound
      = .resolved (.record [("Name", "mybucket"), ("Owner", "0xabc")]) :=
  ⟨rfl, C7_scenario_A jsonOkNever rfl⟩

/-! ## Claim C8 -/

/-- C8 (corrected).  Spawn-preceding validation exists only for bucket
creation: for every missing or malformed bucket name (undefined, non-string,
empty or whitespace-only), `createBucket` throws the `VALIDATION_ERROR`
classified error (status 400) synchronously, before any subprocess is
spawned.  But `deleteBucket` — cited by the claim — performs no validation
at all: even a whitespace-only name goes straight to a spawn (see the
counterexample), so the claim's `every bucket or file operation` fails. -/
theorem C8_validation_only_for_creation (c : Client) (name : JsInput)
    (hinv : isInvalidName name = true) :
    createBucket c name = .threw (.akave
      { code := "VALIDATION_ERROR", message := "Invalid bucket name"
        status := 400, details := [("bucketName", "required")] })
    ∧ deleteBucket c (.str " ") =
        .spawned (["ipc", "bucket", "delete", " "] ++ credFlags c) "deleteBucket" true := by
  constructor
  · unfold createBucket validateInput
    rw [if_pos rfl, if_pos hinv]
    rfl
  · rfl

/-- C8 witness: the corrected claim at an undefined bucket name. -/
theorem C8_witness :
    isInvalidName .undef = true
    ∧ createBucket { nodeAddress := "addr", privateKey := "pk" } .undef =
        .threw (.akave
          { code := "VALIDATION_ERROR", message := "Invalid bucket name"
            status := 400, details := [("bucketName", "required")] })
    ∧ deleteBucket { nodeAddress := "addr", privateKey := "pk" } (.str " ") =
        .spawned (["ipc", "bucket", "delete", " "] ++
          credFlags { nodeAddress := "addr", privateKey := "pk" }) "deleteBucket" true :=
  ⟨by decide,
   (C8_validation_only_for_creation { nodeAddress := "addr", privateKey := "pk" } .undef (by decide)).1,
   (C8_validation_only_for_creation { nodeAddress := "addr", privateKey := "pk" } .undef (by decide)).2⟩

/-- C8 counterexample: a whitespace-only bucket name is malformed in the
claim's sense (`isInvalidName` holds), yet `deleteBucket` spawns the
subprocess with it instead of returning a `VALIDATION_ERROR` first. -/
theorem C8_counterexample :
    isInvalidName (.str " ") = true
    ∧ deleteBucket { nodeAddress := "addr", privateKey := "pk" } (.str " ") =
        .spawned ["ipc", "bucket", "delete", " ", "--node-address=addr", "--private-key=pk"]
          "deleteBucket" true := by
  refine ⟨by decide, by decide⟩

/-! ## Claim C9 -/

/-- C9 (confirmed, Scenario E).  When spawning the external binary fails
with the `ENOENT` system error (`spawn akavecli ENOENT`), the executor
rejects with the classified error `code = SYSTEM_ERROR, status = 500` and
the command-not-found message, for every parser kind, tracking flag and
lookup outcome — the enrichment step never runs on a rejection. -/
theorem C9_spawn_enoent_system_error (jsonOk : String → Bool) (parser : String)
    (track : Bool) (lookup : LookupOutcome) :
    executeCommand jsonOk (.errored (.sys "ENOENT" "spawn akavecli ENOENT")) parser track lookup =
      .rejected (.akave
        { code := "SYSTEM_ERROR"
          message := "Command not found: akavecli. Please ensure it is installed correctly."
          status := 500, details := [] }) := by
  have h : executeCommandProc jsonOk (.errored (.sys "ENOENT" "spawn akavecli ENOENT")) parser =
      .rejected (.akave
        { code := "SYSTEM_ERROR"
          message := "Command not found: akavecli. Please ensure it is installed correctly."
          status := 500, details := [] }) := by
    unfold executeCommandProc
    rfl
  unfold executeCommand
  rw [h]

/-! ## Claim C10 -/

/-- C10 (confirmed).  The view/info parsers (and, per line, the list
parsers) take the record body at a fixed character offset one position past
the literal prefix: `substring(8)` after the 7-character `Bucket:` and
`substring(6)` after the 5-character `File:` — i.e. the body is the line
after the prefix with one further character dropped.  Consequently a line in
which the first key immediately follows the colon loses that key's first
character (`Bucket:Name=x` parses with key `ame`), while a line with the
expected single separator character (`Bucket: key=value, ...`) parses to
exactly its key-value pairs. -/
theorem C10_fixed_offset_past_prefix :
    (∀ rest : List Char,
      parseBucketView (String.mk ("Bucket:".data ++ rest)) =
        parsePairsUnsafe (splitOnL ',' [' '] (rest.drop 1)) [])
    ∧ (∀ rest : List Char,
      parseFileInfo (String.mk ("File:".data ++ rest)) =
        parsePairsUnsafe (splitOnL ',' [' '] (rest.drop 1)) [])
    ∧ parseBucketList "Bucket:Name=x" = .ok [[("ame", "x")]]
    ∧ parseBucketList "Bucket: Name=x, Owner=y" = .ok [[("Name", "x"), ("Owner", "y")]]
    ∧ parseFileList "File:Name=x" = .ok [[("ame", "x")]]
    ∧ parseBucketView "Bucket:Name=x" = .ok [("ame", "x")] := by
  refine ⟨?_, ?_, by decide, by decide, by decide, by decide⟩
  · intro rest
    have hpre : startsWithL "Bucket:".data (String.mk ("Bucket:".data ++ rest)).data = true :=
      startsWithL_self_append _ _
    have hdrop : (String.mk ("Bucket:".data ++ rest)).data.drop 8 = rest.drop 1 := by
      show (['B', 'u', 'c', 'k', 'e', 't', ':'] ++ rest).drop 8 = rest.drop 1
      simp [List.drop_append]
    unfold parseBucketView
    rw [hdrop]
    simp only [hpre]
    simp
  · intro rest
    have hpre : startsWithL "File:".data (String.mk ("File:".data ++ rest)).data = true :=
      startsWithL_self_append _ _
    have hdrop : (String.mk ("File:".data ++ rest)).data.drop 6 = rest.drop 1 := by
      show (['F', 'i', 'l', 'e', ':'] ++ rest).drop 6 = rest.drop 1
      simp [List.drop_append]
    unfold parseFileInfo
    rw [hdrop]
    simp only [hpre]
    simp

end Akavelink
